import Mathlib

/-!
# Verification of `src/services/gemini.ts` (Polisee)

A shallow embedding of the module's functions over a model of JavaScript
runtime values.  The external chat backend (`puter.ai.chat`) is modelled as
an oracle function from a prompt and an optional model override to an
outcome (a returned value or a raised error).  Raised JavaScript exceptions
are modelled with `Except`: `.error ()` in `extractText` stands for a thrown
`TypeError` (property access on `null`/`undefined`).

Modelling notes:
* JavaScript numbers are modelled as integers (`Int`); `NaN` and fractional
  values are outside the model (no claim mentions them).
* The whitespace class used by `trim`, `\s` and JSON parsing is
  approximated by space, tab, CR, LF, vertical tab and form feed.
* `Task`, `Rubric` and `Reference` come from `../types`, which is not part
  of the provided sources; they are modelled from the spec (section 3).
-/

namespace Gemini

/-- A JavaScript runtime value, as far as this module can observe it. -/
inductive JsValue where
  | vNull : JsValue
  | vUndefined : JsValue
  | vBool : Bool → JsValue
  | vNum : Int → JsValue
  | vStr : String → JsValue
  | vArr : List JsValue → JsValue
  | vObj : List (String × JsValue) → JsValue
deriving Repr

/-- `v` is `null` or `undefined` (the values on which property access throws
and which `??` skips). -/
def isNullish : JsValue → Bool
  | .vNull => true
  | .vUndefined => true
  | _ => false

/-- Property access `v.name` on a receiver that is not `null`/`undefined`:
objects yield the stored field (or `undefined` when absent); primitives and
arrays yield `undefined` for the property names this module reads. -/
def getProp (v : JsValue) (name : String) : JsValue :=
  match v with
  | .vObj fields => ((fields.lookup name).getD .vUndefined)
  | _ => .vUndefined

/-- The nullish-coalescing operator `a ?? b`. -/
def nullishCoalesce (a b : JsValue) : JsValue :=
  if isNullish a then b else a

/-- The JavaScript whitespace class (as approximated by this model),
used by `String.prototype.trim`, `\s` in the fence regexes and JSON. -/
def isJsWs (c : Char) : Bool :=
  c = ' ' || c = '\t' || c = '\n' || c = '\r' || c = '\x0b' || c = '\x0c'

/-- `String.prototype.trim` on the character list of a string. -/
def trimChars (cs : List Char) : List Char :=
  ((cs.dropWhile isJsWs).reverse.dropWhile isJsWs).reverse

/-- `String.prototype.trim`. -/
def jsTrim (s : String) : String :=
  ⟨trimChars s.data⟩

mutual

/-- JavaScript `String(v)` coercion as used by `Array.prototype.join`. -/
def jsStringOf : JsValue → String
  | .vNull => "null"
  | .vUndefined => "undefined"
  | .vBool b => cond b "true" "false"
  | .vNum n => toString n
  | .vStr s => s
  | .vArr xs => jsArrToString xs
  | .vObj _ => "[object Object]"

/-- `Array.prototype.toString` (elements joined with `,`; `null` and
`undefined` elements contribute the empty string). -/
def jsArrToString : List JsValue → String
  | [] => ""
  | x :: xs =>
    (match x with
     | .vNull => ""
     | .vUndefined => ""
     | v => jsStringOf v) ++ (if xs.isEmpty then "" else ",") ++ jsArrToString xs

end

/-- The arrow function mapped over a content sequence in `extractText`
(line 38): `typeof item === 'string' ? item : item.text ?? ''`, followed by
the string coercion `join` applies to each mapped element.  `.error ()`
models the `TypeError` thrown by `item.text` when `item` is
`null`/`undefined`. -/
def contribString (item : JsValue) : Except Unit String :=
  match item with
  | .vStr s => .ok s
  | .vNull => .error ()
  | .vUndefined => .error ()
  | v => .ok (jsStringOf (nullishCoalesce (getProp v "text") (.vStr "")))

/-- `Array.prototype.map` with a throwing callback: stops at the first
element on which the callback throws. -/
def mapContrib : List JsValue → Except Unit (List String)
  | [] => .ok []
  | i :: is =>
    match contribString i with
    | .error e => .error e
    | .ok s => (mapContrib is).map (fun rest => s :: rest)

/-- Lines 43-58 of `extractText`: the cascade that runs when the nested
content field is neither a string nor a sequence — `message?.text`, the
top-level `text`, then the first `choices` entry.  `candidate.message?.text`
is `undefined` (without throwing) when `message` is nullish, hence the
guarded `if`; `choices[0].message` does throw when `choices[0]` is
nullish. -/
def extractTextTail (result : JsValue) : Except Unit String :=
  match (if isNullish (getProp result "message") then .vUndefined
         else getProp (getProp result "message") "text") with
  | .vStr s => .ok s
  | _ =>
    match getProp result "text" with
    | .vStr s => .ok s
    | _ =>
      match getProp result "choices" with
      | .vArr (c :: _) =>
        if isNullish c then .error ()
        else
          match nullishCoalesce
                  (if isNullish (getProp c "message") then .vUndefined
                   else getProp (getProp c "message") "content")
                  (getProp c "text") with
          | .vStr s => .ok s
          | _ => .ok ""
      | _ => .ok ""

/-- `extractText` (src/services/gemini.ts, lines 12-59).

The guard `if (!result || typeof result !== 'object') return ''` lets
exactly objects and arrays through (both are truthy and of typeof
`object`; `null` is falsy), so the match on `.vObj`/`.vArr` below is that
guard.  `.error ()` models a thrown `TypeError`. -/
def extractText (result : JsValue) : Except Unit String :=
  match result with
  | .vStr s => .ok s
  | .vObj _ | .vArr _ =>
    match nullishCoalesce
            (if isNullish (getProp result "message") then .vUndefined
             else getProp (getProp result "message") "content")
            (getProp result "content") with
    | .vStr s => .ok s
    | .vArr items =>
      (mapContrib items).map (fun parts => jsTrim (String.join parts))
    | _ => extractTextTail result
  | _ => .ok ""

/-- The outcome of one raw backend call `puter.ai.chat(prompt, options?)`:
either a resolved response envelope or a raised error (modelled by its
message). -/
inductive ChatOutcome where
  | ok : JsValue → ChatOutcome
  | err : String → ChatOutcome

/-- The chat backend as an oracle: a prompt and an optional model override
(`some m` for `{ model: m }`, `none` for no options) determine the
outcome. -/
def Backend : Type := String → Option String → ChatOutcome

/-- The preferred model identifier (src/services/gemini.ts, line 10). -/
def MODEL : String := "claude-3-5-sonnet"

/-- An error that `chatWithFallback` lets escape to its caller: a backend
error from the fallback call, or the `TypeError` of `extractText` on the
fallback result (line 73 is outside the `try`). -/
inductive RunError where
  | backendErr : String → RunError
  | typeError : RunError

/-- Everything observable about one `chatWithFallback` run: its
result (returned string or propagated error), how many backend calls were
issued with the preferred model and with no model override, and whether
`console.warn` fired. -/
structure FallbackResult where
  output : Except RunError String
  preferredCalls : Nat
  defaultCalls : Nat
  warned : Bool

/-- Lines 72-73 of `chatWithFallback`: the single default-model (no model
override) attempt.  `warned` records whether the `catch` block ran
earlier. -/
def fallbackStep (backend : Backend) (prompt : String) (warned : Bool) : FallbackResult :=
  match backend prompt none with
  | .err e => ⟨.error (.backendErr e), 1, 1, warned⟩
  | .ok v =>
    match extractText v with
    | .ok s => ⟨.ok s, 1, 1, warned⟩
    | .error _ => ⟨.error .typeError, 1, 1, warned⟩

/-- `chatWithFallback` (src/services/gemini.ts, lines 61-74).  The `try`
block covers both the preferred-model call and the extraction of its
result; any throw there is logged by `console.warn` and control falls
through to the fallback step.  An extracted empty string is falsy, so it
also falls through (without warning). -/
def chatWithFallback (backend : Backend) (prompt : String) : FallbackResult :=
  match backend prompt (some MODEL) with
  | .err _ => fallbackStep backend prompt true
  | .ok v =>
    match extractText v with
    | .error _ => fallbackStep backend prompt true
    | .ok s => if s ≠ "" then ⟨.ok s, 1, 0, false⟩ else fallbackStep backend prompt false

/-- Modelled from the spec: `Task` (types module, not under `src/`): title,
domain, jurisdiction, deliverable type, stakeholders, constraints and the
free-text prompt, with the field names the code reads
(`deliverable_type`, `prompt_text`). -/
structure Task where
  title : String
  domain : String
  jurisdiction : String
  deliverable_type : String
  stakeholders : List String
  constraints : List String
  prompt_text : String

/-- Modelled from the spec: `Rubric` (types module, not under `src/`):
scoring criteria keyed by identifier.  Only its JSON serialization is ever
observed by this module. -/
structure Rubric where
  criteria : List (String × String)

/-- Modelled from the spec: `Reference['style']` (types module, not under
`src/`): the fixed enumeration of the four style tags. -/
inductive RefStyle where
  | neutral : RefStyle
  | staffer : RefStyle
  | brief : RefStyle
  | onePager : RefStyle

/-- The string value of a style tag (`'one-pager'` is the quoted key in
the source table). -/
def styleName : RefStyle → String
  | .neutral => "neutral"
  | .staffer => "staffer"
  | .brief => "brief"
  | .onePager => "one-pager"

/-- Upper-casing of an ASCII letter. -/
def asciiUpper (c : Char) : Char :=
  if 'a' ≤ c ∧ c ≤ 'z' then Char.ofNat (c.toNat - 32) else c

/-- `String.prototype.toUpperCase`, for the ASCII style names it is
applied to. -/
def jsToUpperCase (s : String) : String :=
  ⟨s.data.map asciiUpper⟩

/-- One hex digit, lower case (for `JSON.stringify` control escapes). -/
def hexDigit (n : Nat) : Char :=
  if n < 10 then Char.ofNat (48 + n) else Char.ofNat (87 + n)

/-- `JSON.stringify` escaping of a single character. -/
def jsonEscapeChar (c : Char) : String :=
  if c = '"' then "\\\""
  else if c = '\\' then "\\\\"
  else if c = '\n' then "\\n"
  else if c = '\r' then "\\r"
  else if c = '\t' then "\\t"
  else if c = '\x08' then "\\b"
  else if c = '\x0c' then "\\f"
  else if c.toNat < 32 then
    "\\u00" ++ String.mk [hexDigit ((c.toNat / 16) % 16), hexDigit (c.toNat % 16)]
  else String.singleton c

/-- `JSON.stringify` of a string. -/
def jsonQuote (s : String) : String :=
  "\"" ++ String.join (s.data.map jsonEscapeChar) ++ "\""

/-- `JSON.stringify` of an array of strings (as used for
`task.stakeholders` and `task.constraints`). -/
def jsonStringifyList (xs : List String) : String :=
  "[" ++ String.intercalate "," (xs.map jsonQuote) ++ "]"

/-- `JSON.stringify(task)` — field order modelled from the spec's listing
of the `Task` type. -/
def taskStringify (t : Task) : String :=
  "\x7b\"title\":" ++ jsonQuote t.title ++
  ",\"domain\":" ++ jsonQuote t.domain ++
  ",\"jurisdiction\":" ++ jsonQuote t.jurisdiction ++
  ",\"deliverable_type\":" ++ jsonQuote t.deliverable_type ++
  ",\"stakeholders\":" ++ jsonStringifyList t.stakeholders ++
  ",\"constraints\":" ++ jsonStringifyList t.constraints ++
  ",\"prompt_text\":" ++ jsonQuote t.prompt_text ++ "\x7d"

/-- `JSON.stringify(rubric)` — the criteria map, modelled from the spec. -/
def rubricStringify (r : Rubric) : String :=
  "\x7b" ++
    String.intercalate ","
      (r.criteria.map (fun kv => jsonQuote kv.1 ++ ":" ++ jsonQuote kv.2)) ++
  "\x7d"

/-- The memo prompt template of `generatePolicyResponse` (lines 78-104),
as a function of the task and the already-formatted current date (the
`toLocaleDateString` result, an input of the model). -/
def policyPrompt (task : Task) (date : String) : String :=
  "\n    SYSTEM: You are a professional public policy analyst.\n    FORMAT: Professional Policy Memo.\n\n    START THE MEMO WITH THIS HEADER STRUCTURE:\n    **TO:** [Primary Decision Makers]\n    **FROM:** Senior Public Policy Analyst\n    **DATE:** " ++
  date ++
  "\n    **SUBJECT:** [Descriptive Title from Task]\n\n    ---\n\n    TASK CONTEXT:\n    - Title: " ++
  task.title ++
  "\n    - Domain: " ++ task.domain ++
  "\n    - Jurisdiction: " ++ task.jurisdiction ++
  "\n    - Deliverable: " ++ task.deliverable_type ++
  "\n    - Stakeholders: " ++ jsonStringifyList task.stakeholders ++
  "\n    - Constraints: " ++ jsonStringifyList task.constraints ++
  "\n\n    CONTENT REQUIREMENTS:\n    1. Start with an ### **Executive Summary**.\n    2. Use professional, clear, and structured sections (e.g., Background, Analysis, Recommendations).\n    3. Adhere strictly to constraints: " ++
  task.prompt_text ++
  ".\n    4. If scientific or legal certainty is missing, clearly state assumptions.\n    5. Use a neutral, authoritative tone suitable for high-level government officials.\n  "

/-- `generatePolicyResponse` (lines 76-108), with the formatted current
date as an explicit input.  A propagated backend/extraction error from the
fallback path escapes this function too. -/
def generatePolicyResponse (backend : Backend) (task : Task) (date : String) :
    Except RunError String :=
  match (chatWithFallback backend (policyPrompt task date)).output with
  | .error e => .error e
  | .ok text => .ok (if text = "" then "No response generated." else text)

/-- The evaluation prompt template of `evaluateResponse` (lines 111-134). -/
def evalPrompt (task : Task) (rubric : Rubric) (responseText : String) : String :=
  "\n    ACT AS: A senior policy evaluator.\n    TASK: " ++
  taskStringify task ++
  "\n    RUBRIC: " ++ rubricStringify rubric ++
  "\n\n    EVALUATE THE FOLLOWING RESPONSE:\n    ---\n    " ++
  responseText ++
  "\n    ---\n\n    DIRECTIONS:\n    - Grade objectively based on the rubric.\n    - Provide clear, everyday language in your notes—avoid overly technical jargon where possible.\n\n    RETURN JSON FORMAT ONLY (no markdown, no code fences, just raw JSON):\n    \x7b\n      \"scores\": \x7b \"criteria_id\": score_number \x7d,\n      \"hard_fail_triggered\": boolean,\n      \"notes\": \"A helpful summary of the response quality.\",\n      \"limitations\": [\"list\", \"of\", \"gaps\", \"or\", \"missing\", \"data\"],\n      \"assumptions\": [\"list\", \"of\", \"assumptions\", \"the\", \"analyst\", \"made\"],\n      \"rationale\": \"Detailed explanation of why this grade was given.\"\n    \x7d\n  "

/-- The fixed style-guide table of `generateReference` (lines 150-155). -/
def styleGuides : RefStyle → String
  | .neutral => "Write in a neutral, objective academic tone. Present facts without advocacy. Suitable for non-partisan research offices."
  | .staffer => "Write in the voice of a legislative staffer briefing their principal. Be direct, action-oriented, and politically aware. Highlight what matters for the vote."
  | .brief => "Write a concise executive brief. Lead with the bottom line. Use bullet points and short paragraphs. Suitable for senior executives with limited time."
  | .onePager => "Condense everything into a single-page format. Use headers, bullets, and bold text for scannability. Maximum 500 words."

/-- The reference prompt template of `generateReference` (lines 157-179). -/
def referencePrompt (task : Task) (responseText : String) (style : RefStyle) : String :=
  "\n    SYSTEM: You are a professional policy reference writer.\n\n    TASK CONTEXT:\n    - Title: " ++
  task.title ++
  "\n    - Domain: " ++ task.domain ++
  "\n    - Jurisdiction: " ++ task.jurisdiction ++
  "\n    - Stakeholders: " ++ jsonStringifyList task.stakeholders ++
  "\n    - Constraints: " ++ jsonStringifyList task.constraints ++
  "\n\n    ORIGINAL POLICY MEMO:\n    ---\n    " ++
  responseText ++
  "\n    ---\n\n    WRITING STYLE: " ++ jsToUpperCase (styleName style) ++
  "\n    " ++ styleGuides style ++
  "\n\n    INSTRUCTIONS:\n    Write a polished reference document based on the original policy memo above.\n    The reference should distill the key findings, recommendations, and constraints into the specified style.\n    Do not invent new policy positions—only reframe and summarize what exists in the memo.\n  "

/-- `generateReference` (lines 149-183). -/
def generateReference (backend : Backend) (task : Task) (responseText : String)
    (style : RefStyle) : Except RunError String :=
  match (chatWithFallback backend (referencePrompt task responseText style)).output with
  | .error e => .error e
  | .ok text => .ok (if text = "" then "No reference generated." else text)

/-- JSON whitespace (the exact four characters `JSON.parse` skips). -/
def isJsonWs (c : Char) : Bool :=
  c = ' ' || c = '\t' || c = '\n' || c = '\r'

/-- Skip JSON whitespace. -/
def skipJsonWs (cs : List Char) : List Char :=
  cs.dropWhile isJsonWs

/-- The value of one hex digit, if `c` is one. -/
def hexVal (c : Char) : Option Nat :=
  if '0' ≤ c ∧ c ≤ '9' then some (c.toNat - 48)
  else if 'a' ≤ c ∧ c ≤ 'f' then some (c.toNat - 87)
  else if 'A' ≤ c ∧ c ≤ 'F' then some (c.toNat - 55)
  else none

/-- The body of a JSON string (after the opening quote): accumulated
characters, handling the JSON escapes; raw control characters are
rejected, as `JSON.parse` does. -/
def parseStringBody (acc : List Char) : List Char → Except Unit (String × List Char)
  | [] => .error ()
  | '"' :: rest => .ok (String.mk acc.reverse, rest)
  | '\\' :: rest =>
    (match rest with
     | '"' :: r => parseStringBody ('"' :: acc) r
     | '\\' :: r => parseStringBody ('\\' :: acc) r
     | '/' :: r => parseStringBody ('/' :: acc) r
     | 'b' :: r => parseStringBody ('\x08' :: acc) r
     | 'f' :: r => parseStringBody ('\x0c' :: acc) r
     | 'n' :: r => parseStringBody ('\n' :: acc) r
     | 'r' :: r => parseStringBody ('\r' :: acc) r
     | 't' :: r => parseStringBody ('\t' :: acc) r
     | 'u' :: a :: b :: c :: d :: r =>
       (match hexVal a, hexVal b, hexVal c, hexVal d with
        | some x, some y, some z, some w =>
          parseStringBody (Char.ofNat (((x * 16 + y) * 16 + z) * 16 + w) :: acc) r
        | _, _, _, _ => .error ())
     | _ => .error ())
  | c :: rest => if c.toNat < 32 then .error () else parseStringBody (c :: acc) rest

/-- A run of decimal digits, folded onto `acc`. -/
def parseDigits (acc : Nat) : List Char → (Nat × List Char)
  | c :: rest =>
    if c.isDigit then parseDigits (acc * 10 + (c.toNat - 48)) rest else (acc, c :: rest)
  | [] => (acc, [])

/-- A JSON number.  This model restricts JSON numbers to (optionally
negated) integers; fractional and exponent forms are outside the model. -/
def parseNumber (cs : List Char) : Except Unit (JsValue × List Char) :=
  match cs with
  | '-' :: c :: rest =>
    if c.isDigit then
      let nr := parseDigits (c.toNat - 48) rest
      .ok (.vNum (-(nr.1 : Int)), nr.2)
    else .error ()
  | c :: rest =>
    if c.isDigit then
      let nr := parseDigits (c.toNat - 48) rest
      .ok (.vNum (nr.1 : Int), nr.2)
    else .error ()
  | [] => .error ()

/-- Assignment of a key in an object under construction: a duplicate key
keeps its first position but takes the later value, as in `JSON.parse`. -/
def upsertField (fields : List (String × JsValue)) (k : String) (v : JsValue) :
    List (String × JsValue) :=
  if fields.any (fun kv => kv.1 = k) then
    fields.map (fun kv => if kv.1 = k then (k, v) else kv)
  else fields ++ [(k, v)]

mutual

/-- One JSON value, fuel-indexed (each recursive call consumes at least
one character, so `length + 1` fuel always suffices). -/
def parseVal : Nat → List Char → Except Unit (JsValue × List Char)
  | 0, _ => .error ()
  | fuel + 1, cs =>
    match skipJsonWs cs with
    | 'n' :: 'u' :: 'l' :: 'l' :: rest => .ok (.vNull, rest)
    | 't' :: 'r' :: 'u' :: 'e' :: rest => .ok (.vBool true, rest)
    | 'f' :: 'a' :: 'l' :: 's' :: 'e' :: rest => .ok (.vBool false, rest)
    | '"' :: rest => (parseStringBody [] rest).map (fun sr => (.vStr sr.1, sr.2))
    | '[' :: rest =>
      (match skipJsonWs rest with
       | ']' :: r2 => .ok (.vArr [], r2)
       | r2 => parseArrItems fuel r2 [])
    | '\x7b' :: rest =>
      (match skipJsonWs rest with
       | '\x7d' :: r2 => .ok (.vObj [], r2)
       | r2 => parseObjItems fuel r2 [])
    | c :: rest => if c = '-' || c.isDigit then parseNumber (c :: rest) else .error ()
    | [] => .error ()

/-- The comma-separated items of a JSON array (after `[`). -/
def parseArrItems : Nat → List Char → List JsValue → Except Unit (JsValue × List Char)
  | 0, _, _ => .error ()
  | fuel + 1, cs, acc =>
    match parseVal fuel cs with
    | .error e => .error e
    | .ok (v, r) =>
      match skipJsonWs r with
      | ',' :: r2 => parseArrItems fuel r2 (acc ++ [v])
      | ']' :: r2 => .ok (.vArr (acc ++ [v]), r2)
      | _ => .error ()

/-- The comma-separated entries of a JSON object (after the opening
brace). -/
def parseObjItems : Nat → List Char → List (String × JsValue) →
    Except Unit (JsValue × List Char)
  | 0, _, _ => .error ()
  | fuel + 1, cs, acc =>
    match skipJsonWs cs with
    | '"' :: rest =>
      (match parseStringBody [] rest with
       | .error e => .error e
       | .ok (k, r) =>
         match skipJsonWs r with
         | ':' :: r2 =>
           (match parseVal fuel r2 with
            | .error e => .error e
            | .ok (v, r3) =>
              match skipJsonWs r3 with
              | ',' :: r4 => parseObjItems fuel r4 (upsertField acc k v)
              | '\x7d' :: r4 => .ok (.vObj (upsertField acc k v), r4)
              | _ => .error ())
         | _ => .error ())
    | _ => .error ()

end

/-- `JSON.parse`: a whole-string JSON value (`.error ()` models a thrown
`SyntaxError`). -/
def jsonParse (s : String) : Except Unit JsValue :=
  match parseVal (s.length + 1) s.data with
  | .ok (v, rest) => if skipJsonWs rest = [] then .ok v else .error ()
  | .error _ => .error ()

/-- Lower-casing of an ASCII letter (all the fence regex compares
case-insensitively is the four letters of `json`). -/
def asciiLower (c : Char) : Char :=
  if 'A' ≤ c ∧ c ≤ 'Z' then Char.ofNat (c.toNat + 32) else c

/-- The first `replace` of line 141 on the character list: the regex
`^` + three backticks + `(?:json)?\s*\n?` (case-insensitive), which
removes a leading code fence and any whitespace after it. -/
def stripLeadingFenceChars : List Char → List Char
  | '\x60' :: '\x60' :: '\x60' :: rest =>
    (match rest with
     | a :: b :: c :: d :: r =>
       if asciiLower a = 'j' ∧ asciiLower b = 's' ∧ asciiLower c = 'o' ∧ asciiLower d = 'n'
       then r.dropWhile isJsWs
       else rest.dropWhile isJsWs
     | _ => rest.dropWhile isJsWs)
  | cs => cs

/-- The first `replace` of line 141. -/
def stripLeadingFence (s : String) : String :=
  ⟨stripLeadingFenceChars s.data⟩

/-- The second `replace` of line 141 on the character list: the regex
`\n?` + three backticks + `\s*$`, whose only possible match is a final
fence (the last three non-whitespace characters), together with one
newline before it and the trailing whitespace after it; when nothing
matches the string is left unchanged, trailing whitespace included. -/
def stripTrailingFenceChars (cs : List Char) : List Char :=
  match cs.reverse.dropWhile isJsWs with
  | '\x60' :: '\x60' :: '\x60' :: rest =>
    (match rest with
     | '\n' :: r => r.reverse
     | r => r.reverse)
  | _ => cs

/-- The second `replace` of line 141. -/
def stripTrailingFence (s : String) : String :=
  ⟨stripTrailingFenceChars s.data⟩

/-- Lines 139-141 of `evaluateResponse`: `result || "{}"`, the two fence
replacements, and the final `trim`. -/
def evalPostProcess (result : String) : String :=
  jsTrim (stripTrailingFence (stripLeadingFence (if result = "" then "\x7b\x7d" else result)))

/-- `evaluateResponse` (lines 110-147).  The returned `JsValue` is the
`JSON.parse` result as-is (the code performs no schema validation); only
the `try` around the parse is local, so a fallback-path error still
escapes. -/
def evaluateResponse (backend : Backend) (task : Task) (rubric : Rubric)
    (responseText : String) : Except RunError JsValue :=
  match (chatWithFallback backend (evalPrompt task rubric responseText)).output with
  | .error e => .error e
  | .ok result =>
    match jsonParse (evalPostProcess result) with
    | .ok v => .ok v
    | .error _ => .ok (.vObj [("notes", .vStr "Error in evaluation parsing.")])

/-!
## Specification-side definitions

The following definitions restate section 4.1 of the spec in its own
words, to be compared with `extractText` (which is translated from the
source).  The candidate locations, in the spec's priority order:
(a) the value itself if a string; (b) the nested content field if a
string; (c) the nested content field if a sequence, elements concatenated
and trimmed; (d) the message wrapper's text field; (e) the envelope's
top-level text field; (f) the first choices entry's message-content or
text field.
-/

/-- The string carried by `v`, when `v` is a string. -/
def asString : JsValue → Option String
  | .vStr s => some s
  | _ => none

/-- The "nested content field": `message.content` when present, otherwise
the top-level `content` field. -/
def specNestedContent (v : JsValue) : JsValue :=
  nullishCoalesce (getProp (getProp v "message") "content") (getProp v "content")

/-- Candidate (a): the value itself if it is already a string. -/
def candSelf (v : JsValue) : Option String := asString v

/-- Candidate (b): a nested content field that is itself a string. -/
def candContentString (v : JsValue) : Option String := asString (specNestedContent v)

/-- The contribution of one element of a content sequence: the element if
a string, otherwise its `text` field (empty when absent). -/
def specElemString (item : JsValue) : String :=
  match item with
  | .vStr s => s
  | _ => jsStringOf (nullishCoalesce (getProp item "text") (.vStr ""))

/-- Candidate (c): a nested content field that is a sequence, elements
concatenated in order and trimmed. -/
def candContentSeq (v : JsValue) : Option String :=
  match specNestedContent v with
  | .vArr items => some (jsTrim (String.join (items.map specElemString)))
  | _ => none

/-- Candidate (d): the message wrapper's top-level text field. -/
def candMessageText (v : JsValue) : Option String :=
  asString (getProp (getProp v "message") "text")

/-- Candidate (e): the envelope's top-level text field. -/
def candEnvelopeText (v : JsValue) : Option String := asString (getProp v "text")

/-- Candidate (f): the first entry of a choices sequence, its
message-content or text sub-field. -/
def candChoices (v : JsValue) : Option String :=
  match getProp v "choices" with
  | .vArr (c :: _) =>
    asString (nullishCoalesce (getProp (getProp c "message") "content") (getProp c "text"))
  | _ => none

/-- The first candidate that is a non-empty string (the claim's reading of
the extractor contract). -/
def firstNonEmpty : List (Option String) → Option String
  | [] => none
  | some s :: rest => if s ≠ "" then some s else firstNonEmpty rest
  | none :: rest => firstNonEmpty rest

/-- The first candidate that matches at all, even with an empty string
(the behaviour the code actually has). -/
def firstMatch : List (Option String) → Option String
  | [] => none
  | some s :: _ => some s
  | none :: rest => firstMatch rest

/-- Modelled from the spec (section 4.1), as the claim reads it: the first
non-empty string found via the priority order of candidate locations,
empty when none matches or the input is not an object/string. -/
def firstNonEmptyExtract (v : JsValue) : String :=
  match v with
  | .vStr _ | .vObj _ | .vArr _ =>
    (firstNonEmpty [candSelf v, candContentString v, candContentSeq v,
      candMessageText v, candEnvelopeText v, candChoices v]).getD ""
  | _ => ""

/-- The amended extractor contract: the first candidate location whose
value has the expected shape wins, even when the resulting string is
empty. -/
def extractTextRef (v : JsValue) : String :=
  match v with
  | .vStr s => s
  | .vObj _ | .vArr _ =>
    (firstMatch [candContentString v, candContentSeq v, candMessageText v,
      candEnvelopeText v, candChoices v]).getD ""
  | _ => ""

/-- The inputs on which the tail cascade of `extractText` throws: the
`message.text` and top-level `text` candidates missed, the choices branch
was reached, and its first entry is `null`/`undefined`. -/
def extractTailThrows (v : JsValue) : Bool :=
  if (candMessageText v).isSome then false
  else if (candEnvelopeText v).isSome then false
  else
    match getProp v "choices" with
    | .vArr (c :: _) => isNullish c
    | _ => false

/-- The inputs on which `extractText` throws a `TypeError`: a matched
content sequence holding a `null`/`undefined` element, or — when the
cascade reaches the choices fallback — a `null`/`undefined` first choices
entry. -/
def extractThrows (v : JsValue) : Bool :=
  match v with
  | .vObj _ | .vArr _ =>
    (match specNestedContent v with
     | .vStr _ => false
     | .vArr items => items.any isNullish
     | _ => extractTailThrows v)
  | _ => false

/-- The condition under which control reaches the fallback path of
`chatWithFallback`: the preferred-model attempt raised, or it succeeded
with empty extracted text. -/
def preferredFellThrough (backend : Backend) (prompt : String) : Prop :=
  (∃ e, backend prompt (some MODEL) = .err e) ∨
  (∃ v, backend prompt (some MODEL) = .ok v ∧ extractText v = .ok "")

/-- A backend whose preferred-model attempt succeeds with text and whose
default-model path raises (so any default-model call would be visible). -/
def witBackendC1 : Backend := fun _ m =>
  match m with
  | some _ => .ok (.vStr "hello")
  | none => .err "default path must not run"

/-- A backend whose preferred-model attempt raises and whose default-model
attempt succeeds. -/
def witBackendC2 : Backend := fun _ m =>
  match m with
  | some _ => .err "preferred model unavailable"
  | none => .ok (.vStr "fallback text")

/-- A backend whose preferred-model attempt raises and whose default-model
attempt succeeds (fixture for the error-routing claim). -/
def witBackendC5 : Backend := fun _ m =>
  match m with
  | some _ => .err "model not found"
  | none => .ok (.vStr "recovered")

/-- A concrete task (only its serialized fields reach the prompts). -/
def sampleTask : Task := ⟨"T", "D", "J", "memo", [], [], "P"⟩

/-- A concrete rubric. -/
def sampleRubric : Rubric := ⟨[]⟩

/-- A backend that always returns text that is not JSON. -/
def witBackendNotJson : Backend := fun _ _ => .ok (.vStr "not json")

/-- A backend response wrapped in a ```json code fence. -/
def fencedExample : String :=
  "```json\n\x7b\"scores\":\x7b\"a\":5\x7d,\"hard_fail_triggered\":false\x7d\n```"

/-- The value `JSON.parse` recovers from `fencedExample`. -/
def parsedExample : JsValue :=
  .vObj [("scores", .vObj [("a", .vNum 5)]), ("hard_fail_triggered", .vBool false)]

/-- A backend that always returns the fenced JSON example. -/
def witBackendFenced : Backend := fun _ _ => .ok (.vStr fencedExample)

/-- A backend that always returns the empty string as its envelope. -/
def witBackendC8Empty : Backend := fun _ _ => .ok (.vStr "")

/-- A backend that always returns a non-empty text envelope. -/
def witBackendC8Text : Backend := fun _ _ => .ok (.vStr "hello")

/-- The part of the memo prompt before the embedded date (a constant: the
date is interpolated before any task field). -/
def policyPromptDatePre : String :=
  "\n    SYSTEM: You are a professional public policy analyst.\n    FORMAT: Professional Policy Memo.\n\n    START THE MEMO WITH THIS HEADER STRUCTURE:\n    **TO:** [Primary Decision Makers]\n    **FROM:** Senior Public Policy Analyst\n    **DATE:** "

/-- The part of the memo prompt after the embedded date (a function of the
task only). -/
def policyPromptDateTail (task : Task) : String :=
  "\n    **SUBJECT:** [Descriptive Title from Task]\n\n    ---\n\n    TASK CONTEXT:\n    - Title: " ++
  task.title ++
  "\n    - Domain: " ++ task.domain ++
  "\n    - Jurisdiction: " ++ task.jurisdiction ++
  "\n    - Deliverable: " ++ task.deliverable_type ++
  "\n    - Stakeholders: " ++ jsonStringifyList task.stakeholders ++
  "\n    - Constraints: " ++ jsonStringifyList task.constraints ++
  "\n\n    CONTENT REQUIREMENTS:\n    1. Start with an ### **Executive Summary**.\n    2. Use professional, clear, and structured sections (e.g., Background, Analysis, Recommendations).\n    3. Adhere strictly to constraints: " ++
  task.prompt_text ++
  ".\n    4. If scientific or legal certainty is missing, clearly state assumptions.\n    5. Use a neutral, authoritative tone suitable for high-level government officials.\n  "

/-- The reference prompt up to and including `WRITING STYLE: `. -/
def referencePromptStylePre (task : Task) (responseText : String) : String :=
  "\n    SYSTEM: You are a professional policy reference writer.\n\n    TASK CONTEXT:\n    - Title: " ++
  task.title ++
  "\n    - Domain: " ++ task.domain ++
  "\n    - Jurisdiction: " ++ task.jurisdiction ++
  "\n    - Stakeholders: " ++ jsonStringifyList task.stakeholders ++
  "\n    - Constraints: " ++ jsonStringifyList task.constraints ++
  "\n\n    ORIGINAL POLICY MEMO:\n    ---\n    " ++
  responseText ++
  "\n    ---\n\n    WRITING STYLE: "

/-- The constant tail of the reference prompt, after the style guidance. -/
def referencePromptTailLit : String :=
  "\n\n    INSTRUCTIONS:\n    Write a polished reference document based on the original policy memo above.\n    The reference should distill the key findings, recommendations, and constraints into the specified style.\n    Do not invent new policy positions—only reframe and summarize what exists in the memo.\n  "

/-!
## Supporting lemmas
-/

/-- Optional chaining collapses: guarding a property access with a
nullish test is the same as the total `getProp`, which already yields
`undefined` on nullish receivers. -/
theorem getProp_if_nullish (m : JsValue) (k : String) :
    (if isNullish m then JsValue.vUndefined else getProp m k) = getProp m k := by
  cases m <;> rfl

/-- On a non-nullish element the throwing map callback agrees with the
spec-side element contribution. -/
theorem contribString_eq (i : JsValue) (h : isNullish i = false) :
    contribString i = .ok (specElemString i) := by
  cases i <;> simp_all [contribString, specElemString, isNullish]

/-- The throwing map over a content sequence: it throws exactly when some
element is nullish, and otherwise computes the spec-side element map. -/
theorem mapContrib_eq (items : List JsValue) :
    (mapContrib items = .error () ∧ items.any isNullish = true) ∨
    (mapContrib items = .ok (items.map specElemString) ∧ items.any isNullish = false) := by
  induction items with
  | nil => right; exact ⟨rfl, rfl⟩
  | cons i is ih =>
    cases hi : isNullish i
    · have hc : contribString i = .ok (specElemString i) := contribString_eq i hi
      rcases ih with ⟨he, ha⟩ | ⟨he, ha⟩
      · left; refine ⟨?_, ?_⟩
        · simp [mapContrib, hc, he, Except.map]
        · simp [List.any_cons, ha]
      · right; refine ⟨?_, ?_⟩
        · simp [mapContrib, hc, he, Except.map]
        · simp [List.any_cons, hi, ha]
    · have hc : contribString i = .error () := by
        cases i <;> simp_all [contribString, isNullish]
      left; refine ⟨?_, ?_⟩
      · simp [mapContrib, hc]
      · simp [List.any_cons, hi]

/-- The tail cascade of `extractText` throws exactly on the inputs
`extractTailThrows` describes, and otherwise computes the first matching
candidate among (d), (e), (f). -/
theorem tail_characterize (v : JsValue) :
    (extractTailThrows v = true ∧ extractTextTail v = .error ()) ∨
    (extractTailThrows v = false ∧ extractTextTail v =
      .ok ((firstMatch [candMessageText v, candEnvelopeText v, candChoices v]).getD "")) := by
  unfold extractTextTail extractTailThrows
  rw [getProp_if_nullish]
  cases hmt : getProp (getProp v "message") "text"
  case vStr s =>
    right
    simp [candMessageText, asString, hmt, firstMatch]
  all_goals (
    simp only [candMessageText, asString, hmt, Option.isSome_none, Bool.false_eq_true,
      if_false, firstMatch]
    cases htx : getProp v "text"
    case vStr s => right; simp [candEnvelopeText, asString, htx, firstMatch]
    all_goals (
      simp only [candEnvelopeText, asString, htx, Option.isSome_none, Bool.false_eq_true,
        if_false, firstMatch]
      cases hch : getProp v "choices"
      case vArr cs =>
        cases cs with
        | nil => right; simp [candChoices, hch, firstMatch]
        | cons c rest =>
          cases hc : isNullish c
          · simp only [hc, Bool.false_eq_true, if_false, getProp_if_nullish]
            cases hct : nullishCoalesce (getProp (getProp c "message") "content") (getProp c "text")
            case vStr s => right; simp [candChoices, hch, asString, hct, firstMatch]
            all_goals (right; simp [candChoices, hch, asString, hct, firstMatch])
          · left; simp [hc]
      all_goals (right; simp [candChoices, hch, firstMatch])))

/-- The object/array branch of `extractText`, against the spec-side
cascade (the hypotheses are discharged by `rfl` at each of the two
constructors). -/
theorem extract_characterize_core (v : JsValue)
    (hx : extractText v =
      match nullishCoalesce
              (if isNullish (getProp v "message") then .vUndefined
               else getProp (getProp v "message") "content")
              (getProp v "content") with
      | .vStr s => .ok s
      | .vArr items => (mapContrib items).map (fun parts => jsTrim (String.join parts))
      | _ => extractTextTail v)
    (ht : extractThrows v =
      match specNestedContent v with
      | .vStr _ => false
      | .vArr items => items.any isNullish
      | _ => extractTailThrows v)
    (hr : extractTextRef v =
      (firstMatch [candContentString v, candContentSeq v, candMessageText v,
        candEnvelopeText v, candChoices v]).getD "") :
    (extractThrows v = true ∧ extractText v = .error ()) ∨
    (extractThrows v = false ∧ extractText v = .ok (extractTextRef v)) := by
  rw [hx, ht, hr, getProp_if_nullish]
  unfold specNestedContent
  cases hnc : nullishCoalesce (getProp (getProp v "message") "content") (getProp v "content")
  case vStr s =>
    right
    simp [candContentString, candContentSeq, specNestedContent, asString, hnc, firstMatch]
  case vArr items =>
    rcases mapContrib_eq items with ⟨he, ha⟩ | ⟨he, ha⟩
    · left
      simp [he, ha, Except.map]
    · right
      simp [he, ha, Except.map, candContentString, candContentSeq, specNestedContent,
        asString, hnc, firstMatch]
  all_goals (
    simpa [candContentString, candContentSeq, specNestedContent, asString, hnc, firstMatch]
      using tail_characterize v)

/-- `extractText` either throws — exactly when `extractThrows` holds — or
returns the first matching candidate of the spec's priority order,
possibly empty. -/
theorem extract_characterize (v : JsValue) :
    (extractThrows v = true ∧ extractText v = .error ()) ∨
    (extractThrows v = false ∧ extractText v = .ok (extractTextRef v)) := by
  cases v
  case vObj fields => exact extract_characterize_core _ rfl rfl rfl
  case vArr xs => exact extract_characterize_core _ rfl rfl rfl
  all_goals (right; exact ⟨rfl, rfl⟩)

/-- The fallback step always issues exactly one default-model call. -/
theorem fallbackStep_defaultCalls (backend : Backend) (prompt : String) (w : Bool) :
    (fallbackStep backend prompt w).defaultCalls = 1 := by
  unfold fallbackStep
  cases hb : backend prompt none
  case err e => simp
  case ok v => cases hx : extractText v <;> simp [hx]

/-- The fallback step reports exactly the warning state it was entered
with. -/
theorem fallbackStep_warned (backend : Backend) (prompt : String) (w : Bool) :
    (fallbackStep backend prompt w).warned = w := by
  unfold fallbackStep
  cases hb : backend prompt none
  case err e => simp
  case ok v => cases hx : extractText v <;> simp [hx]

/-- When the default-model call resolves and extraction returns, the
fallback step returns the extracted text as-is. -/
theorem fallbackStep_output_ok (backend : Backend) (prompt : String) (w : Bool)
    (v : JsValue) (s : String) (hb : backend prompt none = .ok v)
    (hx : extractText v = .ok s) :
    (fallbackStep backend prompt w).output = .ok s := by
  simp [fallbackStep, hb, hx]

/-- A default-model backend error propagates out of the fallback step
unchanged. -/
theorem fallbackStep_output_err (backend : Backend) (prompt : String) (w : Bool)
    (e : String) (hb : backend prompt none = .err e) :
    (fallbackStep backend prompt w).output = .error (.backendErr e) := by
  simp [fallbackStep, hb]

/-- When the preferred attempt raises or extracts empty text, the whole
run is the fallback step (warned when it raised, unwarned when it was
merely empty). -/
theorem chatWithFallback_fellThrough (backend : Backend) (prompt : String)
    (h : preferredFellThrough backend prompt) :
    chatWithFallback backend prompt = fallbackStep backend prompt true ∨
    chatWithFallback backend prompt = fallbackStep backend prompt false := by
  rcases h with ⟨e, he⟩ | ⟨v, hv, hx⟩
  · left; simp [chatWithFallback, he]
  · right; simp [chatWithFallback, hv, hx]

/-!
## Claims
-/

/-- C1: for every prompt, if the preferred-model backend attempt succeeds
and its extracted text is non-empty, `chatWithFallback` returns that text
and never issues the default-model (no model override) backend call. -/
theorem C1_preferred_success_skips_default (backend : Backend) (prompt : String)
    (v : JsValue) (s : String)
    (hpre : backend prompt (some MODEL) = .ok v)
    (hext : extractText v = .ok s) (hne : s ≠ "") :
    chatWithFallback backend prompt = ⟨.ok s, 1, 0, false⟩ := by
  simp [chatWithFallback, hpre, hext, hne]

/-- C1 witness: a preferred-model success returns its text with zero
default-model calls even against a backend whose default path raises. -/
theorem C1_witness : chatWithFallback witBackendC1 "p" = ⟨.ok "hello", 1, 0, false⟩ :=
  C1_preferred_success_skips_default witBackendC1 "p" (.vStr "hello") "hello" rfl rfl
    (by decide)

/-- C2: when the preferred attempt raises or extracts empty text,
`chatWithFallback` issues exactly one further backend call with no model
override and returns the text extracted from that call's result as-is
(possibly empty). -/
theorem C2_fallback_exactly_once (backend : Backend) (prompt : String)
    (h : preferredFellThrough backend prompt) :
    (chatWithFallback backend prompt).defaultCalls = 1 ∧
    ∀ v s, backend prompt none = .ok v → extractText v = .ok s →
      (chatWithFallback backend prompt).output = .ok s := by
  rcases chatWithFallback_fellThrough backend prompt h with hc | hc <;>
    (rw [hc];
     exact ⟨fallbackStep_defaultCalls backend prompt _,
       fun v s hb hx => fallbackStep_output_ok backend prompt _ v s hb hx⟩)

/-- C2 witness: with a raising preferred model, exactly one default-model
call is made and its text is returned. -/
theorem C2_witness :
    (chatWithFallback witBackendC2 "p").defaultCalls = 1 ∧
    (chatWithFallback witBackendC2 "p").output = .ok "fallback text" := by
  have h := C2_fallback_exactly_once witBackendC2 "p"
    (Or.inl ⟨"preferred model unavailable", rfl⟩)
  exact ⟨h.1, h.2 (.vStr "fallback text") "fallback text" rfl rfl⟩

/-- C3 counterexample: the claim says the extractor returns the first
NON-EMPTY string found via the priority order, but on
`{content: "", text: "Z"}` the code returns the empty matched `content`
candidate instead of the non-empty later `text` candidate "Z" that the
claim (formalized by `firstNonEmptyExtract`, written from the spec's
words) requires. -/
theorem C3_counterexample :
    extractText (.vObj [("content", .vStr ""), ("text", .vStr "Z")]) = .ok "" ∧
    firstNonEmptyExtract (.vObj [("content", .vStr ""), ("text", .vStr "Z")]) = "Z" ∧
    ("" : String) ≠ "Z" := ⟨rfl, rfl, by decide⟩

/-- C3 (amended): whenever `extractText` returns, it returns the string of
the FIRST MATCHING candidate location in the priority order — even when
that string is empty — and the claim's concrete examples hold. -/
theorem C3_first_matching_candidate :
    (∀ v, extractText v = .ok (extractTextRef v) ∨ extractText v = .error ()) ∧
    extractText (.vObj [("message", .vObj [("content", .vStr "X")])]) = .ok "X" ∧
    extractText (.vObj [("message", .vObj [("content",
      .vArr [.vObj [("text", .vStr "A")], .vStr "B"])])]) = .ok "AB" ∧
    extractText (.vObj [("choices", .vArr [.vObj [("text", .vStr "Y")]])]) = .ok "Y" ∧
    extractText .vNull = .ok "" ∧
    extractText (.vNum 42) = .ok "" ∧
    extractText (.vObj []) = .ok "" := by
  refine ⟨fun v => ?_, rfl, rfl, rfl, rfl, rfl, rfl⟩
  rcases extract_characterize v with ⟨_, he⟩ | ⟨_, he⟩
  · right; exact he
  · left; exact he

/-- C4 counterexample: the claim says `extractText` is total and never
raises, but a content sequence holding `null` makes `item.text` throw a
`TypeError` (modelled by `.error ()`), as does a `null` first `choices`
entry. -/
theorem C4_counterexample :
    extractText (.vObj [("content", .vArr [.vNull])]) = .error () ∧
    extractText (.vObj [("choices", .vArr [.vNull])]) = .error () := ⟨rfl, rfl⟩

/-- C4 (amended): `extractText` throws exactly on the inputs described by
`extractThrows` — a matched content sequence with a nullish element, or a
nullish first choices entry reached by the cascade — and on every other
input it returns a string; non-object/non-string and unmatched inputs
degrade to the empty string. -/
theorem C4_throw_characterization :
    (∀ v, extractText v = .error () ↔ extractThrows v = true) ∧
    extractText (.vBool true) = .ok "" ∧
    extractText (.vObj [("garbage", .vNum 1)]) = .ok "" ∧
    extractText (.vObj [("content", .vArr [.vNum 7, .vStr "x"])]) = .ok "x" := by
  refine ⟨fun v => ⟨fun he => ?_, fun ht => ?_⟩, rfl, rfl, rfl⟩
  · rcases extract_characterize v with ⟨ht, _⟩ | ⟨_, hok⟩
    · exact ht
    · rw [hok] at he; simp at he
  · rcases extract_characterize v with ⟨_, he⟩ | ⟨hf, _⟩
    · exact he
    · rw [ht] at hf; simp at hf

/-- C5: an error raised by the preferred-model attempt leads to a warning
and is never propagated — the run is exactly the fallback step, which does
not depend on that error — whereas an error raised by the fallback
(default-model) attempt propagates to the caller unchanged. -/
theorem C5_error_routing (backend : Backend) (prompt : String) :
    (∀ e, backend prompt (some MODEL) = .err e →
      chatWithFallback backend prompt = fallbackStep backend prompt true ∧
      (chatWithFallback backend prompt).warned = true) ∧
    (∀ e, preferredFellThrough backend prompt → backend prompt none = .err e →
      (chatWithFallback backend prompt).output = .error (.backendErr e)) := by
  refine ⟨fun e he => ?_, fun e h hbe => ?_⟩
  · have hc : chatWithFallback backend prompt = fallbackStep backend prompt true := by
      simp [chatWithFallback, he]
    exact ⟨hc, by rw [hc]; exact fallbackStep_warned backend prompt true⟩
  · rcases chatWithFallback_fellThrough backend prompt h with hc | hc <;>
      (rw [hc]; exact fallbackStep_output_err backend prompt _ e hbe)

/-- C5 witness: a preferred-attempt error is recovered (warned, run equals
the fallback step), and a fallback-attempt error propagates unchanged. -/
theorem C5_witness :
    chatWithFallback witBackendC5 "p" = fallbackStep witBackendC5 "p" true ∧
    (chatWithFallback witBackendC5 "p").warned = true ∧
    (chatWithFallback (fun _ _ => .err "down") "p").output = .error (.backendErr "down") := by
  have h1 := (C5_error_routing witBackendC5 "p").1 "model not found" rfl
  have h2 := (C5_error_routing (fun _ _ => .err "down") "p").2 "down"
    (Or.inl ⟨"down", rfl⟩) rfl
  exact ⟨h1.1, h1.2, h2⟩

/-- C6: for every task, rubric and response text, when the post-processed
backend text fails to parse as JSON, `evaluateResponse` does not raise and
returns only the fixed literal error note, discarding everything else. -/
theorem C6_parse_failure_note (backend : Backend) (task : Task) (rubric : Rubric)
    (responseText s : String)
    (hout : (chatWithFallback backend (evalPrompt task rubric responseText)).output = .ok s)
    (hparse : jsonParse (evalPostProcess s) = .error ()) :
    evaluateResponse backend task rubric responseText =
      .ok (.vObj [("notes", .vStr "Error in evaluation parsing.")]) := by
  simp [evaluateResponse, hout, hparse]

/-- C6 witness: non-JSON backend text yields exactly the error-note
partial review. -/
theorem C6_witness :
    evaluateResponse witBackendNotJson sampleTask sampleRubric "r" =
      .ok (.vObj [("notes", .vStr "Error in evaluation parsing.")]) :=
  C6_parse_failure_note witBackendNotJson sampleTask sampleRubric "r" "not json" rfl rfl

/-- C7: `evaluateResponse` strips leading/trailing code fences (with or
without a language tag) before parsing, and a successful parse is returned
as-is with no schema validation; the fenced example parses to an object
whose `scores.a` is 5. -/
theorem C7_fence_strip_parse_as_is :
    (∀ (backend : Backend) (task : Task) (rubric : Rubric) (responseText s : String)
      (v : JsValue),
      (chatWithFallback backend (evalPrompt task rubric responseText)).output = .ok s →
      jsonParse (evalPostProcess s) = .ok v →
      evaluateResponse backend task rubric responseText = .ok v) ∧
    evalPostProcess fencedExample = "\x7b\"scores\":\x7b\"a\":5\x7d,\"hard_fail_triggered\":false\x7d" ∧
    evalPostProcess "```\n\x7b\"a\":1\x7d\n```" = "\x7b\"a\":1\x7d" ∧
    jsonParse (evalPostProcess fencedExample) = .ok parsedExample ∧
    getProp (getProp parsedExample "scores") "a" = .vNum 5 := by
  refine ⟨fun backend task rubric responseText s v hout hparse => ?_, rfl, rfl, rfl, rfl⟩
  simp [evaluateResponse, hout, hparse]

/-- C7 witness: the fenced example evaluates to the parsed object as-is. -/
theorem C7_witness :
    evaluateResponse witBackendFenced sampleTask sampleRubric "r" = .ok parsedExample :=
  C7_fence_strip_parse_as_is.1 witBackendFenced sampleTask sampleRubric "r" fencedExample
    parsedExample rfl rfl

/-- C8: when the fallback invoker yields empty text the policy generator
returns "No response generated." and the reference generator returns
"No reference generated."; non-empty text is returned unchanged. -/
theorem C8_placeholder_on_empty (backend : Backend) (task : Task)
    (date respText : String) (style : RefStyle) :
    ((chatWithFallback backend (policyPrompt task date)).output = .ok "" →
      generatePolicyResponse backend task date = .ok "No response generated.") ∧
    (∀ s, s ≠ "" → (chatWithFallback backend (policyPrompt task date)).output = .ok s →
      generatePolicyResponse backend task date = .ok s) ∧
    ((chatWithFallback backend (referencePrompt task respText style)).output = .ok "" →
      generateReference backend task respText style = .ok "No reference generated.") ∧
    (∀ s, s ≠ "" → (chatWithFallback backend (referencePrompt task respText style)).output = .ok s →
      generateReference backend task respText style = .ok s) := by
  refine ⟨fun h => by simp [generatePolicyResponse, h],
    fun s hs h => by simp [generatePolicyResponse, h, hs],
    fun h => by simp [generateReference, h],
    fun s hs h => by simp [generateReference, h, hs]⟩

/-- C8 witness: empty extraction yields the two placeholders; non-empty
text passes through unchanged. -/
theorem C8_witness :
    generatePolicyResponse witBackendC8Empty sampleTask "May 1, 2026" =
      .ok "No response generated." ∧
    generateReference witBackendC8Empty sampleTask "memo" RefStyle.brief =
      .ok "No reference generated." ∧
    generatePolicyResponse witBackendC8Text sampleTask "May 1, 2026" = .ok "hello" :=
  ⟨(C8_placeholder_on_empty witBackendC8Empty sampleTask "May 1, 2026" "memo"
      RefStyle.brief).1 rfl,
   (C8_placeholder_on_empty witBackendC8Empty sampleTask "May 1, 2026" "memo"
      RefStyle.brief).2.2.1 rfl,
   (C8_placeholder_on_empty witBackendC8Text sampleTask "May 1, 2026" "memo"
      RefStyle.brief).2.1 "hello" (by decide) rfl⟩

/-- C9: for each declared style tag, the reference prompt contains that
style's exact guidance string from the fixed table and the upper-cased
style name ("NEUTRAL", "STAFFER", "BRIEF", "ONE-PAGER"). -/
theorem C9_reference_prompt_contains_style (task : Task) (responseText : String)
    (style : RefStyle) :
    (∃ p q, referencePrompt task responseText style = p ++ styleGuides style ++ q) ∧
    (∃ p q, referencePrompt task responseText style =
      p ++ jsToUpperCase (styleName style) ++ q) ∧
    jsToUpperCase (styleName .neutral) = "NEUTRAL" ∧
    jsToUpperCase (styleName .staffer) = "STAFFER" ∧
    jsToUpperCase (styleName .brief) = "BRIEF" ∧
    jsToUpperCase (styleName .onePager) = "ONE-PAGER" := by
  refine ⟨⟨referencePromptStylePre task responseText ++ jsToUpperCase (styleName style) ++
      "\n    ", referencePromptTailLit, ?_⟩,
    ⟨referencePromptStylePre task responseText,
      "\n    " ++ styleGuides style ++ referencePromptTailLit, ?_⟩,
    rfl, rfl, rfl, rfl⟩ <;>
  simp only [referencePrompt, referencePromptStylePre, referencePromptTailLit,
    String.append_assoc]

/-- C10: the memo prompt is a deterministic function of the task and the
formatted current date, and the date appears in a single slot between a
constant prefix and a task-determined tail — so two calls with an
identical task differ at most in the embedded date. -/
theorem C10_policy_prompt_date_only (task : Task) :
    ∃ pre post, ∀ date : String, policyPrompt task date = pre ++ date ++ post :=
  ⟨policyPromptDatePre, policyPromptDateTail task, fun date => by
    simp only [policyPrompt, policyPromptDatePre, policyPromptDateTail, String.append_assoc]⟩

end Gemini
